import Mathlib

set_option maxHeartbeats 1000000

namespace LayerCreator

/-- A filesystem path, modelled as its list of components. -/
abbrev Path := List String

/-- A filesystem object: a directory, a regular file with string content, or a
zip archive whose payload is its list of entries (entry name, entry content). -/
inductive FsObj where
  | dir : FsObj
  | file (content : String) : FsObj
  | zipf (entries : List (Path × String)) : FsObj
  deriving DecidableEq

/-- The filesystem: an association list from paths to objects, kept duplicate
free by the insertion operation. -/
abbrev FS := List (Path × FsObj)

/-- Create or overwrite the object stored at a path (last write wins). -/
def fsInsert (fs : FS) (p : Path) (o : FsObj) : FS :=
  fs.filter (fun e => decide (e.1 ≠ p)) ++ [(p, o)]

/-- Read the object stored at a path, if any. -/
def fsGet (fs : FS) (p : Path) : Option FsObj :=
  (fs.find? (fun e => decide (e.1 = p))).map Prod.snd

/-- Whether path `p` equals `d` or lies below the directory `d`. -/
def inTree (d p : Path) : Bool := decide (p.take d.length = d)

/-- Embedding of shutil.rmtree: remove a directory and everything below it. -/
def rmtree (fs : FS) (d : Path) : FS :=
  fs.filter (fun e => ! inTree d e.1)

/-- Embedding of os.path.relpath for the case where `base` is a prefix of `p`
(the only case the source exercises: every walked file lies below temp_dir). -/
def relpath (p base : Path) : Path := p.drop base.length

/-- Render a component path the way the Python code sees it (os.path.join). -/
def pathToString (p : Path) : String := String.intercalate "/" p

/-- The keyword arguments of client.publish_layer_version (source lines 40-45). -/
structure PublishRequest where
  LayerName : String
  Description : String
  Content : List (Path × String)
  CompatibleRuntimes : List String
  deriving DecidableEq

/-- Observable events of one run, in program order. -/
inductive Event where
  | pipCall (cmd : String) : Event
  | zipWrite (path : Path) (entries : List (Path × String)) : Event
  | clientCreate (region : String) : Event
  | publishCall (req : PublishRequest) : Event
  | printed (s : String) : Event
  | rmtreeCall (dir : Path) : Event
  deriving DecidableEq

/-- Exceptions the embedded workflow can raise. -/
inductive Err where
  | calledProcessError (cmd : String) (returncode : Nat) : Err
  | clientError (msg : String) : Err
  | readError (p : Path) : Err
  deriving DecidableEq

/-- The external collaborators, treated as black boxes: the package manager
(result of `pip install LIB -t DIR`: either a non-zero exit code or the list of
installed files, given by their path relative to the target directory and their
content), the package manager run on a requirements manifest, and the provider
publish endpoint (region, request ↦ error message or response). -/
structure Env where
  pip : String → Path → Except Nat (List (Path × String))
  reqInstall : String → Path → Except Nat (List (Path × String))
  publish : String → PublishRequest → Except String String

/-- Whether an Except value is a success. -/
def exceptOk {ε α : Type} : Except ε α → Bool
  | Except.ok _ => true
  | Except.error _ => false

/-- The shell command built at source line 21. -/
def pipCmd (library : String) (package_dir : Path) : String :=
  "pip install " ++ library ++ " -t " ++ pathToString package_dir

/-- The shell command built at source line 25. -/
def reqCmd (r : String) (package_dir : Path) : String :=
  "pip install -r " ++ r ++ " -t " ++ pathToString package_dir

/-- Materialize a list of installed files below the target directory. -/
def installFiles (fs : FS) (package_dir : Path) (files : List (Path × String)) : FS :=
  files.foldl (fun acc f => fsInsert acc (package_dir ++ f.1) (FsObj.file f.2)) fs

/-- Embedding of source lines 19-21: one synchronous check_call per library; a
non-zero exit raises CalledProcessError and aborts the loop. -/
def installLibraries (env : Env) (package_dir : Path) :
    List String → FS → List Event → Except Err Unit × FS × List Event
  | [], fs, tr => (Except.ok (), fs, tr)
  | library :: rest, fs, tr =>
    let tr := tr ++ [Event.pipCall (pipCmd library package_dir)]
    match env.pip library package_dir with
    | Except.error code =>
        (Except.error (Err.calledProcessError (pipCmd library package_dir) code), fs, tr)
    | Except.ok files =>
        installLibraries env package_dir rest (installFiles fs package_dir files) tr

/-- Embedding of source lines 24-25; a None or empty manifest path is falsy in
Python, so both skip the extra install pass. -/
def installRequirements (env : Env) (package_dir : Path) (requirements_file : Option String)
    (fs : FS) (tr : List Event) : Except Err Unit × FS × List Event :=
  match requirements_file with
  | none => (Except.ok (), fs, tr)
  | some r =>
    if r = "" then (Except.ok (), fs, tr)
    else
      let tr := tr ++ [Event.pipCall (reqCmd r package_dir)]
      match env.reqInstall r package_dir with
      | Except.error code =>
          (Except.error (Err.calledProcessError (reqCmd r package_dir) code), fs, tr)
      | Except.ok files => (Except.ok (), installFiles fs package_dir files, tr)

/-- Embedding of os.walk over `d`: every regular file at or below `d`, in
filesystem order. -/
def walkFiles (fs : FS) (d : Path) : List (Path × String) :=
  fs.filterMap (fun e =>
    match e.2 with
    | FsObj.file c => if inTree d e.1 then some (e.1, c) else none
    | _ => none)

/-- The zip entries written at source lines 30-34: each walked file under its
path relative to temp_dir. -/
def zipEntries (fs : FS) (temp_dir package_dir : Path) : List (Path × String) :=
  (walkFiles fs package_dir).map (fun f => (relpath f.1 temp_dir, f.2))

/-- Embedding of source lines 28-34: create the archive inside temp_dir. -/
def zipStep (temp_dir package_dir : Path) (layer_name : String) (fs : FS) (tr : List Event) :
    Path × FS × List Event :=
  let zip_file := temp_dir ++ [layer_name ++ ".zip"]
  let entries := zipEntries fs temp_dir package_dir
  (zip_file, fsInsert fs zip_file (FsObj.zipf entries), tr ++ [Event.zipWrite zip_file entries])

/-- The description f-string of source line 42. -/
def descriptionFor (libraries : List String) : String :=
  "Lambda layer for " ++
    (if libraries.isEmpty then "multiple libraries" else String.intercalate ", " libraries)

/-- Embedding of source lines 36-48: build the client, read the archive bytes
back from disk, publish, and print the response. -/
def uploadStep (env : Env) (libraries : List String) (layer_name runtime region_name : String)
    (zip_file : Path) (fs : FS) (tr : List Event) : Except Err (Option String) × FS × List Event :=
  let tr := tr ++ [Event.clientCreate region_name]
  match fsGet fs zip_file with
  | some (FsObj.zipf entries) =>
    let req : PublishRequest :=
      { LayerName := layer_name
        Description := descriptionFor libraries
        Content := entries
        CompatibleRuntimes := [runtime] }
    let tr := tr ++ [Event.publishCall req]
    match env.publish region_name req with
    | Except.error msg => (Except.error (Err.clientError msg), fs, tr)
    | Except.ok response => (Except.ok none, fs, tr ++ [Event.printed response])
  | _ => (Except.error (Err.readError zip_file), fs, tr)

/-- Embedding of the try block, source lines 17-50. -/
def tryBody (env : Env) (temp_dir package_dir : Path) (libraries : List String)
    (layer_name runtime region_name : String) (upload : Bool)
    (requirements_file : Option String) (fs : FS) : Except Err (Option String) × FS × List Event :=
  match installLibraries env package_dir libraries fs [] with
  | (Except.error e, fs1, tr1) => (Except.error e, fs1, tr1)
  | (Except.ok _, fs1, tr1) =>
    match installRequirements env package_dir requirements_file fs1 tr1 with
    | (Except.error e, fs2, tr2) => (Except.error e, fs2, tr2)
    | (Except.ok _, fs2, tr2) =>
      let z := zipStep temp_dir package_dir layer_name fs2 tr2
      if upload then
        uploadStep env libraries layer_name runtime region_name z.1 z.2.1 z.2.2
      else
        (Except.ok none, z.2.1,
          z.2.2 ++ [Event.printed ("Lambda layer package created at: " ++ pathToString z.1)])

/-- Embedding of source lines 11-15: mkdtemp plus makedirs of the fixed python
subdirectory. The fresh temp_dir name chosen by mkdtemp is passed in. -/
def setupFS (fs0 : FS) (temp_dir : Path) : FS :=
  fsInsert (fsInsert fs0 temp_dir FsObj.dir) (temp_dir ++ ["python"]) FsObj.dir

/-- Embedding of create_lambda_layer, source lines 9-54. The first component is
the Python return value (always None on success, an exception on failure), the
second the final filesystem, the third the event trace. The finally block at
lines 52-54 runs on every path. -/
def create_lambda_layer (env : Env) (fs0 : FS) (temp_dir : Path) (libraries : List String)
    (layer_name : String) (runtime : String) (region_name : String) (upload : Bool)
    (requirements_file : Option String) : Except Err (Option String) × FS × List Event :=
  let package_dir := temp_dir ++ ["python"]
  let out := tryBody env temp_dir package_dir libraries layer_name runtime region_name upload
    requirements_file (setupFS fs0 temp_dir)
  (out.1, rmtree out.2.1 temp_dir, out.2.2 ++ [Event.rmtreeCall temp_dir])

/-- The files a successful pip run installs (empty on failure). -/
def pipFilesOf (env : Env) (package_dir : Path) (library : String) : List (Path × String) :=
  match env.pip library package_dir with
  | Except.ok files => files
  | Except.error _ => []

/-- Filesystem effect of the whole library install loop when every call succeeds. -/
def installAll (env : Env) (package_dir : Path) (libraries : List String) (fs : FS) : FS :=
  libraries.foldl (fun acc l => installFiles acc package_dir (pipFilesOf env package_dir l)) fs

/-- The files a successful requirements run installs (empty on failure). -/
def reqFilesOf (env : Env) (package_dir : Path) (r : String) : List (Path × String) :=
  match env.reqInstall r package_dir with
  | Except.ok files => files
  | Except.error _ => []

/-- Filesystem effect of the requirements step when it succeeds or is skipped. -/
def reqApply (env : Env) (package_dir : Path) (requirements_file : Option String) (fs : FS) : FS :=
  match requirements_file with
  | none => fs
  | some r => if r = "" then fs else installFiles fs package_dir (reqFilesOf env package_dir r)

/-- Whether the requirements step cannot raise (skipped or succeeding). -/
def reqOk (env : Env) (package_dir : Path) : Option String → Bool
  | none => true
  | some r => decide (r = "") || exceptOk (env.reqInstall r package_dir)

/-- Trace of the requirements step when it succeeds or is skipped. -/
def reqTrace (package_dir : Path) : Option String → List Event
  | none => []
  | some r => if r = "" then [] else [Event.pipCall (reqCmd r package_dir)]

/-- Whether a pip result is a success that installs at least one file. -/
def pipOkNonempty (r : Except Nat (List (Path × String))) : Bool :=
  match r with
  | Except.ok files => ! files.isEmpty
  | Except.error _ => false

/-- The outcome of the try block when the install phase raises nothing: the
archive is written, then the upload branch or the local report runs. -/
def okOutcome (env : Env) (temp_dir package_dir : Path) (libraries : List String)
    (layer_name runtime region_name : String) (upload : Bool)
    (requirements_file : Option String) (fs : FS) : Except Err (Option String) × FS × List Event :=
  let fsB := reqApply env package_dir requirements_file (installAll env package_dir libraries fs)
  let zip_file := temp_dir ++ [layer_name ++ ".zip"]
  let entries := zipEntries fsB temp_dir package_dir
  let fs3 := fsInsert fsB zip_file (FsObj.zipf entries)
  let tr3 := libraries.map (fun l => Event.pipCall (pipCmd l package_dir)) ++
    reqTrace package_dir requirements_file ++ [Event.zipWrite zip_file entries]
  if upload then
    let req : PublishRequest :=
      { LayerName := layer_name
        Description := descriptionFor libraries
        Content := entries
        CompatibleRuntimes := [runtime] }
    match env.publish region_name req with
    | Except.error msg =>
        (Except.error (Err.clientError msg), fs3,
          tr3 ++ [Event.clientCreate region_name, Event.publishCall req])
    | Except.ok response =>
        (Except.ok none, fs3,
          tr3 ++ [Event.clientCreate region_name, Event.publishCall req, Event.printed response])
  else
    (Except.ok none, fs3,
      tr3 ++ [Event.printed ("Lambda layer package created at: " ++ pathToString zip_file)])

/-- The publish request a run that reaches the upload step submits. -/
def publishReqFor (env : Env) (temp_dir : Path) (fs0 : FS) (libraries : List String)
    (layer_name runtime : String) (requirements_file : Option String) : PublishRequest :=
  let package_dir := temp_dir ++ ["python"]
  let fsB := reqApply env package_dir requirements_file
    (installAll env package_dir libraries (setupFS fs0 temp_dir))
  { LayerName := layer_name
    Description := descriptionFor libraries
    Content := zipEntries fsB temp_dir package_dir
    CompatibleRuntimes := [runtime] }

/-- Whether an event is an archive write. -/
def isZipWrite : Event → Bool
  | Event.zipWrite _ _ => true
  | _ => false

/-- Whether an event is a package manager invocation. -/
def isPipCall : Event → Bool
  | Event.pipCall _ => true
  | _ => false

/-- Whether a filesystem object is a regular file. -/
def isFileObj : FsObj → Bool
  | FsObj.file _ => true
  | _ => false

/-- Whether the filesystem holds at least one regular file at or below `d`. -/
def hasFileUnder (fs : FS) (d : Path) : Bool :=
  fs.any (fun e => inTree d e.1 && isFileObj e.2)

/-- The strings a trace prints, in order. -/
def printedOf (tr : List Event) : List String :=
  tr.filterMap (fun e =>
    match e with
    | Event.printed s => some s
    | _ => none)

/-- All absolute paths the library install loop writes. -/
def allPaths (env : Env) (package_dir : Path) (libraries : List String) : List Path :=
  libraries.flatMap (fun l => (pipFilesOf env package_dir l).map (fun f => package_dir ++ f.1))

/-- The filesystem entries one library install contributes. -/
def libEntries (env : Env) (package_dir : Path) (l : String) : FS :=
  (pipFilesOf env package_dir l).map (fun f => (package_dir ++ f.1, FsObj.file f.2))

instance exceptDecEq {ε α : Type} [DecidableEq ε] [DecidableEq α] : DecidableEq (Except ε α) :=
  fun x y =>
    match x, y with
    | Except.ok a, Except.ok b =>
        if h : a = b then Decidable.isTrue (by rw [h])
        else Decidable.isFalse (by intro hc; cases hc; exact h rfl)
    | Except.error a, Except.error b =>
        if h : a = b then Decidable.isTrue (by rw [h])
        else Decidable.isFalse (by intro hc; cases hc; exact h rfl)
    | Except.ok _, Except.error _ => Decidable.isFalse (by intro hc; cases hc)
    | Except.error _, Except.ok _ => Decidable.isFalse (by intro hc; cases hc)

/-- A sample environment: every library except badlib installs one file, the
manifest installs one file, the provider echoes region and description. -/
def envGood : Env where
  pip := fun library _ =>
    if library = "badlib" then Except.error 1
    else Except.ok [(["m_" ++ library, "core.py"], "src of " ++ library)]
  reqInstall := fun r _ =>
    if r = "badreq.txt" then Except.error 1
    else Except.ok [(["from_manifest.py"], "manifest src")]
  publish := fun region req => Except.ok ("resp " ++ region ++ " " ++ req.Description)

/-- A sample environment whose installs add no files and whose provider echoes
the request description. -/
def envEcho : Env where
  pip := fun _ _ => Except.ok []
  reqInstall := fun _ _ => Except.ok []
  publish := fun _ req => Except.ok ("resp " ++ req.Description)

/-- A sample environment whose provider always fails. -/
def envNoNet : Env where
  pip := fun _ _ => Except.ok []
  reqInstall := fun _ _ => Except.ok []
  publish := fun _ _ => Except.error "network down"

/-- A sample fresh temporary directory name. -/
def tdemo : Path := ["tmp", "work1"]

theorem fsGet_insert_self (fs : FS) (p : Path) (o : FsObj) :
    fsGet (fsInsert fs p o) p = some o := by
  unfold fsGet fsInsert
  rw [List.find?_append]
  have h1 : (fs.filter (fun e => decide (e.1 ≠ p))).find? (fun e => decide (e.1 = p)) = none := by
    rw [List.find?_eq_none]
    intro x hx
    have hx' : decide (x.1 ≠ p) = true := (List.mem_filter.mp hx).2
    simp at hx' ⊢
    exact hx'
  rw [h1]
  simp [List.find?]

theorem rmtree_all (fs : FS) (d : Path) :
    (rmtree fs d).all (fun e => ! inTree d e.1) = true := by
  rw [List.all_eq_true]
  intro e he
  unfold rmtree at he
  exact (List.mem_filter.mp he).2

theorem fsGet_rmtree (fs : FS) (d p : Path) (h : inTree d p = true) :
    fsGet (rmtree fs d) p = none := by
  unfold fsGet
  have hf : (rmtree fs d).find? (fun e => decide (e.1 = p)) = none := by
    rw [List.find?_eq_none]
    intro x hx hpx
    unfold rmtree at hx
    have hx2 : (! inTree d x.1) = true := (List.mem_filter.mp hx).2
    have hx3 : x.1 = p := of_decide_eq_true hpx
    rw [hx3, h] at hx2
    simp at hx2
  rw [hf]
  rfl

theorem inTree_append (d rest : Path) : inTree d (d ++ rest) = true := by
  simp [inTree, List.take_left]

theorem relpath_head {temp_dir p : Path} (h : inTree (temp_dir ++ ["python"]) p = true) :
    (relpath p temp_dir).head? = some "python" := by
  have h' : p.take (temp_dir ++ ["python"]).length = temp_dir ++ ["python"] :=
    of_decide_eq_true h
  have hp : p = temp_dir ++ ("python" :: p.drop (temp_dir ++ ["python"]).length) := by
    conv_lhs => rw [← List.take_append_drop (temp_dir ++ ["python"]).length p]
    rw [h', List.append_assoc]
    rfl
  unfold relpath
  conv_lhs => rw [hp]
  rw [List.drop_left]
  rfl

theorem walkFiles_inTree {fs : FS} {d : Path} {f : Path × String} (h : f ∈ walkFiles fs d) :
    inTree d f.1 = true := by
  unfold walkFiles at h
  rw [List.mem_filterMap] at h
  obtain ⟨e, _, he⟩ := h
  cases hobj : e.2 with
  | dir => rw [hobj] at he; simp at he
  | zipf es => rw [hobj] at he; simp at he
  | file c' =>
    rw [hobj] at he
    simp only at he
    by_cases hin : inTree d e.1 = true
    · rw [if_pos hin] at he
      have h1 : e.1 = f.1 := by
        have h2 := Option.some.inj he
        exact congrArg Prod.fst h2
      rw [← h1]
      exact hin
    · rw [if_neg hin] at he
      simp at he

theorem mem_walkFiles {fs : FS} {d p : Path} {c : String}
    (hmem : (p, FsObj.file c) ∈ fs) (hin : inTree d p = true) : (p, c) ∈ walkFiles fs d := by
  unfold walkFiles
  rw [List.mem_filterMap]
  exact ⟨(p, FsObj.file c), hmem, by simp [hin]⟩

theorem installLibraries_ok (env : Env) (package_dir : Path) :
    ∀ (libs : List String) (fs : FS) (tr : List Event),
      (∀ l ∈ libs, exceptOk (env.pip l package_dir) = true) →
      installLibraries env package_dir libs fs tr =
        (Except.ok (), installAll env package_dir libs fs,
          tr ++ libs.map (fun l => Event.pipCall (pipCmd l package_dir)))
  | [], fs, tr, _ => by simp [installLibraries, installAll]
  | l :: rest, fs, tr, h => by
    have hl := h l (List.mem_cons_self l rest)
    cases hp : env.pip l package_dir with
    | error code => rw [hp] at hl; simp [exceptOk] at hl
    | ok files =>
      have ih := installLibraries_ok env package_dir rest (installFiles fs package_dir files)
        (tr ++ [Event.pipCall (pipCmd l package_dir)])
        (fun x hx => h x (List.mem_cons_of_mem _ hx))
      simp only [installLibraries, hp]
      rw [ih]
      have hfs : installAll env package_dir (l :: rest) fs =
          installAll env package_dir rest (installFiles fs package_dir files) := by
        simp [installAll, pipFilesOf, hp]
      rw [hfs]
      simp

theorem installRequirements_ok (env : Env) (package_dir : Path) (rf : Option String)
    (fs : FS) (tr : List Event) (h : reqOk env package_dir rf = true) :
    installRequirements env package_dir rf fs tr =
      (Except.ok (), reqApply env package_dir rf fs, tr ++ reqTrace package_dir rf) := by
  cases rf with
  | none => simp [installRequirements, reqApply, reqTrace]
  | some r =>
    by_cases hr : r = ""
    · subst hr
      simp [installRequirements, reqApply, reqTrace]
    · unfold reqOk at h
      rw [Bool.or_eq_true] at h
      rcases h with h | h
      · exact absurd (of_decide_eq_true h) hr
      · cases hq : env.reqInstall r package_dir with
        | error code => rw [hq] at h; simp [exceptOk] at h
        | ok files =>
          simp only [installRequirements, reqApply, reqTrace, if_neg hr, hq, reqFilesOf]

theorem tryBody_ok (env : Env) (temp_dir package_dir : Path) (libraries : List String)
    (layer_name runtime region_name : String) (upload : Bool) (requirements_file : Option String)
    (fs : FS)
    (hlibs : ∀ l ∈ libraries, exceptOk (env.pip l package_dir) = true)
    (hrf : reqOk env package_dir requirements_file = true) :
    tryBody env temp_dir package_dir libraries layer_name runtime region_name upload
        requirements_file fs =
      okOutcome env temp_dir package_dir libraries layer_name runtime region_name upload
        requirements_file fs := by
  unfold tryBody
  rw [installLibraries_ok env package_dir libraries fs [] hlibs]
  dsimp only
  rw [installRequirements_ok env package_dir requirements_file _ _ hrf]
  dsimp only
  unfold okOutcome zipStep uploadStep
  dsimp only
  cases upload with
  | false => simp
  | true =>
    rw [fsGet_insert_self]
    dsimp only
    cases env.publish region_name _ with
    | error msg => simp
    | ok response => simp

theorem installLibraries_err (env : Env) (package_dir : Path) (bad : String) (code : Nat)
    (hbad : env.pip bad package_dir = Except.error code) :
    ∀ (pre post : List String) (fs : FS) (tr : List Event),
      (∀ l ∈ pre, exceptOk (env.pip l package_dir) = true) →
      ∃ fsx, installLibraries env package_dir (pre ++ bad :: post) fs tr =
        (Except.error (Err.calledProcessError (pipCmd bad package_dir) code), fsx,
          tr ++ pre.map (fun l => Event.pipCall (pipCmd l package_dir)) ++
            [Event.pipCall (pipCmd bad package_dir)])
  | [], post, fs, tr, _ => by
    refine ⟨fs, ?_⟩
    simp only [List.nil_append, installLibraries, hbad]
    simp
  | l :: rest, post, fs, tr, h => by
    have hl := h l (List.mem_cons_self l rest)
    cases hp : env.pip l package_dir with
    | error c => rw [hp] at hl; simp [exceptOk] at hl
    | ok files =>
      obtain ⟨fsx, ih⟩ := installLibraries_err env package_dir bad code hbad rest post
        (installFiles fs package_dir files) (tr ++ [Event.pipCall (pipCmd l package_dir)])
        (fun x hx => h x (List.mem_cons_of_mem _ hx))
      refine ⟨fsx, ?_⟩
      simp only [List.cons_append, installLibraries, hp, List.append_eq]
      rw [ih]
      simp

/-- C1: for every invocation, whether the install-archive-upload sequence
completes normally or raises, no entry of the final filesystem lies at or below
the ephemeral workspace directory: the workspace (and the archive inside it)
does not exist after create_lambda_layer returns or raises. -/
theorem workspace_removed_always (env : Env) (fs0 : FS) (temp_dir : Path)
    (libraries : List String) (layer_name runtime region_name : String) (upload : Bool)
    (requirements_file : Option String) :
    ((create_lambda_layer env fs0 temp_dir libraries layer_name runtime region_name upload
        requirements_file).2.1.all (fun e => ! inTree temp_dir e.1)) = true :=
  rmtree_all _ temp_dir

/-- C2: when some library in the list has a failing package-manager invocation
(and the ones before it succeed), create_lambda_layer raises that
CalledProcessError, the trace contains no archive write, and the workspace
teardown still runs. -/
theorem pip_failure_aborts_before_zip (env : Env) (fs0 : FS) (temp_dir : Path)
    (pre post : List String) (bad : String) (code : Nat)
    (layer_name runtime region_name : String) (upload : Bool)
    (requirements_file : Option String)
    (hpre : ∀ l ∈ pre, exceptOk (env.pip l (temp_dir ++ ["python"])) = true)
    (hbad : env.pip bad (temp_dir ++ ["python"]) = Except.error code) :
    (create_lambda_layer env fs0 temp_dir (pre ++ bad :: post) layer_name runtime region_name
        upload requirements_file).1 =
      Except.error (Err.calledProcessError (pipCmd bad (temp_dir ++ ["python"])) code) ∧
    ((create_lambda_layer env fs0 temp_dir (pre ++ bad :: post) layer_name runtime region_name
        upload requirements_file).2.2.all (fun e => ! isZipWrite e)) = true ∧
    Event.rmtreeCall temp_dir ∈
      (create_lambda_layer env fs0 temp_dir (pre ++ bad :: post) layer_name runtime region_name
        upload requirements_file).2.2 := by
  obtain ⟨fsx, hI⟩ := installLibraries_err env (temp_dir ++ ["python"]) bad code hbad pre post
    (setupFS fs0 temp_dir) [] hpre
  have hc : create_lambda_layer env fs0 temp_dir (pre ++ bad :: post) layer_name runtime
      region_name upload requirements_file =
      (Except.error (Err.calledProcessError (pipCmd bad (temp_dir ++ ["python"])) code),
        rmtree fsx temp_dir,
        (pre.map (fun l => Event.pipCall (pipCmd l (temp_dir ++ ["python"]))) ++
          [Event.pipCall (pipCmd bad (temp_dir ++ ["python"]))]) ++
          [Event.rmtreeCall temp_dir]) := by
    unfold create_lambda_layer tryBody
    dsimp only
    rw [hI]
    dsimp only
    simp
  rw [hc]
  refine ⟨rfl, ?_, ?_⟩
  · rw [List.all_eq_true]
    intro e he
    simp only [List.mem_append, List.mem_map, List.mem_singleton] at he
    rcases he with (⟨l, _, hl⟩ | he) | he
    · rw [← hl]; rfl
    · rw [he]; rfl
    · rw [he]; rfl
  · simp

theorem pip_failure_aborts_before_zip_witness :
    (create_lambda_layer envGood [] tdemo (["a"] ++ "badlib" :: ["c"]) "layer" "python3.10"
        "us-east-1" true none).1 =
      Except.error (Err.calledProcessError (pipCmd "badlib" (tdemo ++ ["python"])) 1) ∧
    ((create_lambda_layer envGood [] tdemo (["a"] ++ "badlib" :: ["c"]) "layer" "python3.10"
        "us-east-1" true none).2.2.all (fun e => ! isZipWrite e)) = true ∧
    Event.rmtreeCall tdemo ∈
      (create_lambda_layer envGood [] tdemo (["a"] ++ "badlib" :: ["c"]) "layer" "python3.10"
        "us-east-1" true none).2.2 :=
  pip_failure_aborts_before_zip envGood [] tdemo ["a"] ["c"] "badlib" 1 "layer" "python3.10"
    "us-east-1" true none (by decide) (by decide)

/-- C3: the archive entries are exactly the regular files below the python
subdirectory at archiving time, no extras and no omissions, each under its path
relative to the workspace root, so every entry name begins with python. -/
theorem zip_archive_exact_contents (fs : FS) (temp_dir : Path) :
    (∀ f ∈ walkFiles fs (temp_dir ++ ["python"]),
        (relpath f.1 temp_dir, f.2) ∈ zipEntries fs temp_dir (temp_dir ++ ["python"])) ∧
    (∀ e ∈ zipEntries fs temp_dir (temp_dir ++ ["python"]),
        ∃ f, f ∈ walkFiles fs (temp_dir ++ ["python"]) ∧ e = (relpath f.1 temp_dir, f.2)) ∧
    (zipEntries fs temp_dir (temp_dir ++ ["python"])).length =
      (walkFiles fs (temp_dir ++ ["python"])).length ∧
    (∀ e ∈ zipEntries fs temp_dir (temp_dir ++ ["python"]), e.1.head? = some "python") := by
  refine ⟨?_, ?_, ?_, ?_⟩
  · intro f hf
    exact List.mem_map_of_mem _ hf
  · intro e he
    unfold zipEntries at he
    rw [List.mem_map] at he
    obtain ⟨f, hf, hfe⟩ := he
    exact ⟨f, hf, hfe.symm⟩
  · unfold zipEntries
    rw [List.length_map]
  · intro e he
    unfold zipEntries at he
    rw [List.mem_map] at he
    obtain ⟨f, hf, hfe⟩ := he
    have hin : inTree (temp_dir ++ ["python"]) f.1 = true := walkFiles_inTree hf
    rw [← hfe]
    exact relpath_head hin

/-- C9: create_lambda_layer performs no validation of the layer name: called
with the empty layer name it proceeds and writes an archive named .zip inside
the workspace, for every environment, initial filesystem, runtime, region and
upload flag. -/
theorem empty_layer_name_accepted (env : Env) (fs0 : FS) (temp_dir : Path)
    (runtime region_name : String) (upload : Bool) :
    ∃ es, Event.zipWrite (temp_dir ++ [".zip"]) es ∈
      (create_lambda_layer env fs0 temp_dir [] "" runtime region_name upload none).2.2 := by
  have h := tryBody_ok env temp_dir (temp_dir ++ ["python"]) [] "" runtime region_name upload
    none (setupFS fs0 temp_dir) (by intro l hl; simp at hl) rfl
  refine ⟨zipEntries (reqApply env (temp_dir ++ ["python"]) none
    (installAll env (temp_dir ++ ["python"]) [] (setupFS fs0 temp_dir))) temp_dir
    (temp_dir ++ ["python"]), ?_⟩
  show Event.zipWrite (temp_dir ++ [".zip"]) _ ∈
    (tryBody env temp_dir (temp_dir ++ ["python"]) [] "" runtime region_name upload none
      (setupFS fs0 temp_dir)).2.2 ++ [Event.rmtreeCall temp_dir]
  rw [h]
  unfold okOutcome
  dsimp only
  have hz : ("" ++ ".zip" : String) = ".zip" := rfl
  cases upload with
  | false => simp [reqTrace, hz]
  | true =>
    cases envp : env.publish region_name _ with
    | error msg => simp [reqTrace, hz]
    | ok response => simp [reqTrace, hz]

/-- C10: with upload disabled, the region argument has no effect: two
invocations differing only in region_name produce identical results, final
filesystems and traces. -/
theorem region_ignored_when_no_upload (env : Env) (fs0 : FS) (temp_dir : Path)
    (libraries : List String) (layer_name runtime : String) (ra rb : String)
    (requirements_file : Option String) :
    create_lambda_layer env fs0 temp_dir libraries layer_name runtime ra false
        requirements_file =
      create_lambda_layer env fs0 temp_dir libraries layer_name runtime rb false
        requirements_file := by
  unfold create_lambda_layer
  dsimp only
  have h : tryBody env temp_dir (temp_dir ++ ["python"]) libraries layer_name runtime ra false
      requirements_file (setupFS fs0 temp_dir) =
      tryBody env temp_dir (temp_dir ++ ["python"]) libraries layer_name runtime rb false
        requirements_file (setupFS fs0 temp_dir) := by
    unfold tryBody
    rcases hI : installLibraries env (temp_dir ++ ["python"]) libraries (setupFS fs0 temp_dir)
      [] with ⟨r1, fs1, tr1⟩
    cases r1 with
    | error e => rfl
    | ok u =>
      dsimp only
      rcases hR : installRequirements env (temp_dir ++ ["python"]) requirements_file fs1 tr1
        with ⟨r2, fs2, tr2⟩
      cases r2 with
      | error e => rfl
      | ok u2 => rfl
  rw [h]

/-- C4 as stated is false: in a run with upload enabled where the publish call
succeeds and returns a response, create_lambda_layer returns None (the Python
function has no return statement), not the response; the response is only
printed. -/
theorem publish_response_not_returned_cex :
    (create_lambda_layer envEcho [] tdemo ["a"] "layer" "python3.10" "us-east-1" true none).1 ≠
      Except.ok (some "resp Lambda layer for a") ∧
    (create_lambda_layer envEcho [] tdemo ["a"] "layer" "python3.10" "us-east-1" true none).1 =
      Except.ok none ∧
    Event.printed "resp Lambda layer for a" ∈
      (create_lambda_layer envEcho [] tdemo ["a"] "layer" "python3.10" "us-east-1" true
        none).2.2 := by decide

/-- C4 amended: for every run with upload enabled that reaches the publish call
and succeeds, the provider response is printed (surfaced to the operator), and
the function returns None to its caller. -/
theorem publish_response_printed (env : Env) (fs0 : FS) (temp_dir : Path)
    (libraries : List String) (layer_name runtime region_name : String)
    (requirements_file : Option String) (resp : String)
    (hlibs : ∀ l ∈ libraries, exceptOk (env.pip l (temp_dir ++ ["python"])) = true)
    (hrf : reqOk env (temp_dir ++ ["python"]) requirements_file = true)
    (hpub : env.publish region_name
        (publishReqFor env temp_dir fs0 libraries layer_name runtime requirements_file) =
      Except.ok resp) :
    Event.printed resp ∈
      (create_lambda_layer env fs0 temp_dir libraries layer_name runtime region_name true
        requirements_file).2.2 ∧
    (create_lambda_layer env fs0 temp_dir libraries layer_name runtime region_name true
        requirements_file).1 = Except.ok none := by
  have h := tryBody_ok env temp_dir (temp_dir ++ ["python"]) libraries layer_name runtime
    region_name true requirements_file (setupFS fs0 temp_dir) hlibs hrf
  have hpub' : env.publish region_name
      { LayerName := layer_name
        Description := descriptionFor libraries
        Content := zipEntries (reqApply env (temp_dir ++ ["python"]) requirements_file
          (installAll env (temp_dir ++ ["python"]) libraries (setupFS fs0 temp_dir)))
          temp_dir (temp_dir ++ ["python"])
        CompatibleRuntimes := [runtime] } = Except.ok resp := hpub
  constructor
  · show Event.printed resp ∈
      (tryBody env temp_dir (temp_dir ++ ["python"]) libraries layer_name runtime region_name
        true requirements_file (setupFS fs0 temp_dir)).2.2 ++ [Event.rmtreeCall temp_dir]
    rw [h]
    unfold okOutcome
    dsimp only
    rw [hpub']
    simp
  · show (tryBody env temp_dir (temp_dir ++ ["python"]) libraries layer_name runtime
      region_name true requirements_file (setupFS fs0 temp_dir)).1 = Except.ok none
    rw [h]
    unfold okOutcome
    dsimp only
    rw [hpub']
    simp

theorem publish_response_printed_witness :
    Event.printed "resp us-east-1 Lambda layer for a" ∈
      (create_lambda_layer envGood [] tdemo ["a"] "layer" "python3.10" "us-east-1" true
        none).2.2 ∧
    (create_lambda_layer envGood [] tdemo ["a"] "layer" "python3.10" "us-east-1" true
        none).1 = Except.ok none :=
  publish_response_printed envGood [] tdemo ["a"] "layer" "python3.10" "us-east-1" none
    "resp us-east-1 Lambda layer for a" (by decide) (by decide) (by decide)

/-- C6: every run with upload enabled that survives the install phase submits a
publish request whose description is the fixed prefix followed by the library
names joined by a comma and a space, or the fixed generic description when no
libraries were named. -/
theorem publish_description_lists_libraries (env : Env) (fs0 : FS) (temp_dir : Path)
    (libraries : List String) (layer_name runtime region_name : String)
    (requirements_file : Option String)
    (hlibs : ∀ l ∈ libraries, exceptOk (env.pip l (temp_dir ++ ["python"])) = true)
    (hrf : reqOk env (temp_dir ++ ["python"]) requirements_file = true) :
    Event.publishCall
        (publishReqFor env temp_dir fs0 libraries layer_name runtime requirements_file) ∈
      (create_lambda_layer env fs0 temp_dir libraries layer_name runtime region_name true
        requirements_file).2.2 ∧
    (libraries ≠ [] →
      (publishReqFor env temp_dir fs0 libraries layer_name runtime
          requirements_file).Description =
        "Lambda layer for " ++ String.intercalate ", " libraries) ∧
    (libraries = [] →
      (publishReqFor env temp_dir fs0 libraries layer_name runtime
          requirements_file).Description = "Lambda layer for multiple libraries") := by
  have h := tryBody_ok env temp_dir (temp_dir ++ ["python"]) libraries layer_name runtime
    region_name true requirements_file (setupFS fs0 temp_dir) hlibs hrf
  refine ⟨?_, ?_, ?_⟩
  · show Event.publishCall _ ∈
      (tryBody env temp_dir (temp_dir ++ ["python"]) libraries layer_name runtime region_name
        true requirements_file (setupFS fs0 temp_dir)).2.2 ++ [Event.rmtreeCall temp_dir]
    rw [h]
    unfold okOutcome
    dsimp only
    simp only [publishReqFor]
    cases envp : env.publish region_name _ with
    | error msg => simp
    | ok response => simp
  · intro hne
    cases libraries with
    | nil => exact absurd rfl hne
    | cons l rest => rfl
  · intro hnil
    subst hnil
    rfl

theorem publish_description_lists_libraries_witness :
    Event.publishCall
        (publishReqFor envGood tdemo [] ["a", "b"] "layer" "python3.10" none) ∈
      (create_lambda_layer envGood [] tdemo ["a", "b"] "layer" "python3.10" "us-east-1" true
        none).2.2 ∧
    (["a", "b"] ≠ ([] : List String) →
      (publishReqFor envGood tdemo [] ["a", "b"] "layer" "python3.10" none).Description =
        "Lambda layer for " ++ String.intercalate ", " ["a", "b"]) ∧
    (["a", "b"] = ([] : List String) →
      (publishReqFor envGood tdemo [] ["a", "b"] "layer" "python3.10" none).Description =
        "Lambda layer for multiple libraries") :=
  publish_description_lists_libraries envGood [] tdemo ["a", "b"] "layer" "python3.10"
    "us-east-1" none (by decide) (by decide)

/-- C7 as stated is false: a run with both the library list and the manifest
empty can still fail, namely at the publish call when upload is enabled and the
provider errors. -/
theorem empty_inputs_can_fail_cex :
    (create_lambda_layer envNoNet [] tdemo [] "layer" "python3.10" "us-east-1" true none).1 =
      Except.error (Err.clientError "network down") := by decide

/-- C7 amended: when both the library list and the manifest are empty or
omitted, both install steps are skipped and a (possibly near-empty) zip archive
is still produced; with upload disabled the workflow returns successfully (with
upload enabled it can still fail, but only at the publish call). -/
theorem empty_inputs_skip_installs_still_zip (env : Env) (fs0 : FS) (temp_dir : Path)
    (layer_name runtime region_name : String) (upload : Bool)
    (requirements_file : Option String)
    (hrf : requirements_file = none ∨ requirements_file = some "") :
    ((create_lambda_layer env fs0 temp_dir [] layer_name runtime region_name upload
        requirements_file).2.2.all (fun e => ! isPipCall e)) = true ∧
    (∃ es, Event.zipWrite (temp_dir ++ [layer_name ++ ".zip"]) es ∈
      (create_lambda_layer env fs0 temp_dir [] layer_name runtime region_name upload
        requirements_file).2.2) ∧
    (upload = false →
      (create_lambda_layer env fs0 temp_dir [] layer_name runtime region_name upload
        requirements_file).1 = Except.ok none) := by
  have hrf' : reqOk env (temp_dir ++ ["python"]) requirements_file = true := by
    rcases hrf with h | h <;> subst h <;> rfl
  have h := tryBody_ok env temp_dir (temp_dir ++ ["python"]) [] layer_name runtime region_name
    upload requirements_file (setupFS fs0 temp_dir) (by intro l hl; simp at hl) hrf'
  have htr : reqTrace (temp_dir ++ ["python"]) requirements_file = [] := by
    rcases hrf with hh | hh <;> subst hh <;> rfl
  have hcreate : create_lambda_layer env fs0 temp_dir [] layer_name runtime region_name upload
      requirements_file =
      ((okOutcome env temp_dir (temp_dir ++ ["python"]) [] layer_name runtime region_name
          upload requirements_file (setupFS fs0 temp_dir)).1,
        rmtree (okOutcome env temp_dir (temp_dir ++ ["python"]) [] layer_name runtime
          region_name upload requirements_file (setupFS fs0 temp_dir)).2.1 temp_dir,
        (okOutcome env temp_dir (temp_dir ++ ["python"]) [] layer_name runtime region_name
          upload requirements_file (setupFS fs0 temp_dir)).2.2 ++
          [Event.rmtreeCall temp_dir]) := by
    unfold create_lambda_layer
    dsimp only
    rw [h]
  rw [hcreate]
  unfold okOutcome
  dsimp only
  rw [htr]
  cases upload with
  | false =>
    refine ⟨by simp [isPipCall], ?_, fun _ => rfl⟩
    exact ⟨zipEntries (reqApply env (temp_dir ++ ["python"]) requirements_file
      (installAll env (temp_dir ++ ["python"]) [] (setupFS fs0 temp_dir))) temp_dir
      (temp_dir ++ ["python"]), by simp⟩
  | true =>
    cases envp : env.publish region_name _ with
    | error msg =>
      refine ⟨by simp [isPipCall], ?_, fun hc => by cases hc⟩
      exact ⟨zipEntries (reqApply env (temp_dir ++ ["python"]) requirements_file
        (installAll env (temp_dir ++ ["python"]) [] (setupFS fs0 temp_dir))) temp_dir
        (temp_dir ++ ["python"]), by simp⟩
    | ok response =>
      refine ⟨by simp [isPipCall], ?_, fun hc => by cases hc⟩
      exact ⟨zipEntries (reqApply env (temp_dir ++ ["python"]) requirements_file
        (installAll env (temp_dir ++ ["python"]) [] (setupFS fs0 temp_dir))) temp_dir
        (temp_dir ++ ["python"]), by simp⟩

theorem empty_inputs_skip_installs_still_zip_witness :
    ((create_lambda_layer envNoNet [] tdemo [] "layer" "python3.10" "us-east-1" false
        none).2.2.all (fun e => ! isPipCall e)) = true ∧
    (∃ es, Event.zipWrite (tdemo ++ ["layer" ++ ".zip"]) es ∈
      (create_lambda_layer envNoNet [] tdemo [] "layer" "python3.10" "us-east-1" false
        none).2.2) ∧
    (false = false →
      (create_lambda_layer envNoNet [] tdemo [] "layer" "python3.10" "us-east-1" false
        none).1 = Except.ok none) :=
  empty_inputs_skip_installs_still_zip envNoNet [] tdemo "layer" "python3.10" "us-east-1"
    false none (Or.inl rfl)

theorem hasFileUnder_insert {fs : FS} {d q : Path} {c : String} (h : inTree d q = true) :
    hasFileUnder (fsInsert fs q (FsObj.file c)) d = true := by
  unfold hasFileUnder fsInsert
  rw [List.any_append]
  simp [h, isFileObj]

theorem hasFileUnder_installFiles {d : Path} (files : List (Path × String)) {fs : FS}
    (h : hasFileUnder fs d = true) : hasFileUnder (installFiles fs d files) d = true := by
  induction files generalizing fs with
  | nil => exact h
  | cons f rest ih =>
    show hasFileUnder (installFiles (fsInsert fs (d ++ f.1) (FsObj.file f.2)) d rest) d = true
    exact ih (hasFileUnder_insert (inTree_append d f.1))

theorem hasFileUnder_installFiles_ne {d : Path} {files : List (Path × String)} (fs : FS)
    (h : files ≠ []) : hasFileUnder (installFiles fs d files) d = true := by
  cases files with
  | nil => exact absurd rfl h
  | cons f rest =>
    show hasFileUnder (installFiles (fsInsert fs (d ++ f.1) (FsObj.file f.2)) d rest) d = true
    exact hasFileUnder_installFiles rest (hasFileUnder_insert (inTree_append d f.1))

theorem hasFileUnder_installAll {env : Env} {d : Path} (libs : List String) {fs : FS}
    (h : hasFileUnder fs d = true) : hasFileUnder (installAll env d libs fs) d = true := by
  induction libs generalizing fs with
  | nil => exact h
  | cons l rest ih =>
    show hasFileUnder (installAll env d rest (installFiles fs d (pipFilesOf env d l))) d = true
    exact ih (hasFileUnder_installFiles _ h)

theorem hasFileUnder_reqApply {env : Env} {d : Path} (rf : Option String) {fs : FS}
    (h : hasFileUnder fs d = true) : hasFileUnder (reqApply env d rf fs) d = true := by
  cases rf with
  | none => exact h
  | some r =>
    unfold reqApply
    dsimp only
    by_cases hr : r = ""
    · rw [if_pos hr]; exact h
    · rw [if_neg hr]; exact hasFileUnder_installFiles _ h

theorem exists_python_entry {fs : FS} {temp_dir : Path}
    (h : hasFileUnder fs (temp_dir ++ ["python"]) = true) :
    ∃ e ∈ zipEntries fs temp_dir (temp_dir ++ ["python"]), e.1.head? = some "python" := by
  unfold hasFileUnder at h
  rw [List.any_eq_true] at h
  obtain ⟨ent, hmem, hp⟩ := h
  rw [Bool.and_eq_true] at hp
  obtain ⟨hin, hfile⟩ := hp
  cases hobj : ent.2 with
  | dir => rw [hobj] at hfile; simp [isFileObj] at hfile
  | zipf es => rw [hobj] at hfile; simp [isFileObj] at hfile
  | file c =>
    have hwalk : (ent.1, c) ∈ walkFiles fs (temp_dir ++ ["python"]) := by
      apply mem_walkFiles ?_ hin
      rw [← hobj, Prod.mk.eta]
      exact hmem
    refine ⟨(relpath ent.1 temp_dir, c), ?_, ?_⟩
    · exact List.mem_map_of_mem _ hwalk
    · exact relpath_head hin

theorem pipOkNonempty_exceptOk {r : Except Nat (List (Path × String))}
    (h : pipOkNonempty r = true) : exceptOk r = true := by
  cases r with
  | ok files => rfl
  | error c => simp [pipOkNonempty] at h

theorem pipOkNonempty_files {env : Env} {d : Path} {l : String}
    (h : pipOkNonempty (env.pip l d) = true) : pipFilesOf env d l ≠ [] := by
  unfold pipFilesOf
  cases hp : env.pip l d with
  | error c => rw [hp] at h; simp [pipOkNonempty] at h
  | ok files =>
    rw [hp] at h
    simp [pipOkNonempty] at h
    simpa using h

/-- C5: in a successful run with a non-empty library list (each install adding
at least one file) and upload disabled, the try block reports the archive path,
and at that moment (before teardown) the archive exists on disk and contains a
top-level python entry; after create_lambda_layer returns, the unconditional
teardown has removed that path. -/
theorem no_upload_archive_reported_then_deleted (env : Env) (fs0 : FS) (temp_dir : Path)
    (libraries : List String) (layer_name runtime region_name : String)
    (requirements_file : Option String)
    (hne : libraries ≠ [])
    (hlibs : ∀ l ∈ libraries, pipOkNonempty (env.pip l (temp_dir ++ ["python"])) = true)
    (hrf : reqOk env (temp_dir ++ ["python"]) requirements_file = true) :
    Event.printed ("Lambda layer package created at: " ++
        pathToString (temp_dir ++ [layer_name ++ ".zip"])) ∈
      (tryBody env temp_dir (temp_dir ++ ["python"]) libraries layer_name runtime region_name
        false requirements_file (setupFS fs0 temp_dir)).2.2 ∧
    (∃ es, fsGet (tryBody env temp_dir (temp_dir ++ ["python"]) libraries layer_name runtime
          region_name false requirements_file (setupFS fs0 temp_dir)).2.1
        (temp_dir ++ [layer_name ++ ".zip"]) = some (FsObj.zipf es) ∧
      ∃ e ∈ es, e.1.head? = some "python") ∧
    fsGet (create_lambda_layer env fs0 temp_dir libraries layer_name runtime region_name false
        requirements_file).2.1 (temp_dir ++ [layer_name ++ ".zip"]) = none := by
  have hlibs' : ∀ l ∈ libraries, exceptOk (env.pip l (temp_dir ++ ["python"])) = true :=
    fun l hl => pipOkNonempty_exceptOk (hlibs l hl)
  have h := tryBody_ok env temp_dir (temp_dir ++ ["python"]) libraries layer_name runtime
    region_name false requirements_file (setupFS fs0 temp_dir) hlibs' hrf
  obtain ⟨l, rest, hsplit⟩ := List.exists_cons_of_ne_nil hne
  have hfu : hasFileUnder (reqApply env (temp_dir ++ ["python"]) requirements_file
      (installAll env (temp_dir ++ ["python"]) libraries (setupFS fs0 temp_dir)))
      (temp_dir ++ ["python"]) = true := by
    apply hasFileUnder_reqApply
    rw [hsplit]
    show hasFileUnder (installAll env (temp_dir ++ ["python"]) rest
      (installFiles (setupFS fs0 temp_dir) (temp_dir ++ ["python"])
        (pipFilesOf env (temp_dir ++ ["python"]) l))) (temp_dir ++ ["python"]) = true
    apply hasFileUnder_installAll
    apply hasFileUnder_installFiles_ne
    apply pipOkNonempty_files
    apply hlibs l
    rw [hsplit]
    exact List.mem_cons_self l rest
  refine ⟨?_, ?_, ?_⟩
  · rw [h]
    unfold okOutcome
    dsimp only
    simp
  · rw [h]
    unfold okOutcome
    dsimp only
    refine ⟨zipEntries (reqApply env (temp_dir ++ ["python"]) requirements_file
      (installAll env (temp_dir ++ ["python"]) libraries (setupFS fs0 temp_dir))) temp_dir
      (temp_dir ++ ["python"]), ?_, ?_⟩
    · exact fsGet_insert_self _ _ _
    · exact exists_python_entry hfu
  · show fsGet (rmtree (tryBody env temp_dir (temp_dir ++ ["python"]) libraries layer_name
      runtime region_name false requirements_file (setupFS fs0 temp_dir)).2.1 temp_dir)
      (temp_dir ++ [layer_name ++ ".zip"]) = none
    exact fsGet_rmtree _ _ _ (inTree_append temp_dir [layer_name ++ ".zip"])

theorem no_upload_archive_reported_then_deleted_witness :
    Event.printed ("Lambda layer package created at: " ++
        pathToString (tdemo ++ ["layer" ++ ".zip"])) ∈
      (tryBody envGood tdemo (tdemo ++ ["python"]) ["a"] "layer" "python3.10" "us-east-1"
        false none (setupFS [] tdemo)).2.2 ∧
    (∃ es, fsGet (tryBody envGood tdemo (tdemo ++ ["python"]) ["a"] "layer" "python3.10"
          "us-east-1" false none (setupFS [] tdemo)).2.1
        (tdemo ++ ["layer" ++ ".zip"]) = some (FsObj.zipf es) ∧
      ∃ e ∈ es, e.1.head? = some "python") ∧
    fsGet (create_lambda_layer envGood [] tdemo ["a"] "layer" "python3.10" "us-east-1" false
        none).2.1 (tdemo ++ ["layer" ++ ".zip"]) = none :=
  no_upload_archive_reported_then_deleted envGood [] tdemo ["a"] "layer" "python3.10"
    "us-east-1" none (by decide) (by decide) (by decide)

theorem fsInsert_fresh {fs : FS} {p : Path} {o : FsObj} (h : p ∉ fs.map Prod.fst) :
    fsInsert fs p o = fs ++ [(p, o)] := by
  unfold fsInsert
  congr 1
  rw [List.filter_eq_self]
  intro e he
  have he' : e.1 ≠ p := fun hc => h (hc ▸ List.mem_map_of_mem Prod.fst he)
  simpa using he'

theorem mem_map_fst_fsInsert {fs : FS} {p q : Path} {o : FsObj}
    (h : q ∈ (fsInsert fs p o).map Prod.fst) : q ∈ fs.map Prod.fst ∨ q = p := by
  unfold fsInsert at h
  rw [List.map_append, List.mem_append] at h
  rcases h with h | h
  · left
    rw [List.mem_map] at h
    obtain ⟨e, he, hq⟩ := h
    exact hq ▸ List.mem_map_of_mem _ (List.mem_of_mem_filter he)
  · right
    simpa using h

theorem installFiles_eq_append {d : Path} :
    ∀ (files : List (Path × String)) (fs : FS),
      (∀ f ∈ files, (d ++ f.1) ∉ fs.map Prod.fst) →
      (files.map (fun f => d ++ f.1)).Nodup →
      installFiles fs d files = fs ++ files.map (fun f => (d ++ f.1, FsObj.file f.2))
  | [], fs, _, _ => by simp [installFiles]
  | f :: rest, fs, hdisj, hnd => by
    have hnd0 : ((d ++ f.1) :: rest.map (fun f => d ++ f.1)).Nodup := hnd
    have hnd' := List.nodup_cons.mp hnd0
    show installFiles (fsInsert fs (d ++ f.1) (FsObj.file f.2)) d rest = _
    rw [fsInsert_fresh (hdisj f (List.mem_cons_self f rest))]
    rw [installFiles_eq_append rest (fs ++ [(d ++ f.1, FsObj.file f.2)]) ?hd hnd'.2]
    · simp
    case hd =>
      intro g hg hc
      simp only [List.map_append, List.mem_append] at hc
      rcases hc with hc | hc
      · exact hdisj g (List.mem_cons_of_mem f hg) hc
      · have hc2 : d ++ g.1 = d ++ f.1 := by simpa using hc
        exact hnd'.1 (hc2 ▸ List.mem_map_of_mem _ hg)

theorem installAll_eq_append {env : Env} {d : Path} :
    ∀ (libs : List String) (fs : FS),
      (∀ p ∈ allPaths env d libs, p ∉ fs.map Prod.fst) →
      (allPaths env d libs).Nodup →
      installAll env d libs fs = fs ++ libs.flatMap (libEntries env d)
  | [], fs, _, _ => by simp [installAll]
  | l :: libs, fs, hdisj, hnd => by
    have hpaths : allPaths env d (l :: libs) =
        (pipFilesOf env d l).map (fun f => d ++ f.1) ++ allPaths env d libs := by
      simp [allPaths]
    rw [hpaths] at hdisj hnd
    rw [List.nodup_append] at hnd
    obtain ⟨hnd1, hnd2, hdisj12⟩ := hnd
    show installAll env d libs (installFiles fs d (pipFilesOf env d l)) = _
    rw [installFiles_eq_append (pipFilesOf env d l) fs
      (fun f hf => hdisj _ (List.mem_append_left _ (List.mem_map_of_mem _ hf))) hnd1]
    rw [installAll_eq_append libs
      (fs ++ (pipFilesOf env d l).map (fun f => (d ++ f.1, FsObj.file f.2))) ?h1 hnd2]
    · rw [List.flatMap_cons, ← List.append_assoc]
      rfl
    case h1 =>
      intro p hp hc
      simp only [List.map_append, List.mem_append] at hc
      rcases hc with hc | hc
      · exact hdisj p (List.mem_append_right _ hp) hc
      · have hc2 : p ∈ (pipFilesOf env d l).map (fun f => d ++ f.1) := by
          simpa [List.map_map] using hc
        exact hdisj12 hc2 hp

theorem fsInsert_perm {fs1 fs2 : FS} (p : Path) (o : FsObj) (h : fs1.Perm fs2) :
    (fsInsert fs1 p o).Perm (fsInsert fs2 p o) :=
  (h.filter _).append_right _

theorem installFiles_perm {d : Path} (files : List (Path × String)) {fs1 fs2 : FS}
    (h : fs1.Perm fs2) : (installFiles fs1 d files).Perm (installFiles fs2 d files) := by
  induction files generalizing fs1 fs2 with
  | nil => exact h
  | cons f rest ih => exact ih (fsInsert_perm _ _ h)

theorem reqApply_perm {env : Env} {d : Path} (rf : Option String) {fs1 fs2 : FS}
    (h : fs1.Perm fs2) : (reqApply env d rf fs1).Perm (reqApply env d rf fs2) := by
  cases rf with
  | none => exact h
  | some r =>
    unfold reqApply
    dsimp only
    by_cases hr : r = ""
    · rw [if_pos hr, if_pos hr]; exact h
    · rw [if_neg hr, if_neg hr]; exact installFiles_perm _ h

theorem zipEntries_perm {temp_dir d : Path} {fs1 fs2 : FS} (h : fs1.Perm fs2) :
    (zipEntries fs1 temp_dir d).Perm (zipEntries fs2 temp_dir d) := by
  unfold zipEntries walkFiles
  exact (h.filterMap _).map _

/-- C8 as stated is false: permuting the library list changes the published
result, because the generated description joins the names in list order; here
two permuted lists with identical (empty) installs lead the provider-echoed,
printed responses to differ. -/
theorem permutation_changes_published_result_cex :
    (["a", "b"] : List String).Perm ["b", "a"] ∧
    printedOf (create_lambda_layer envEcho [] tdemo ["a", "b"] "layer" "python3.10" "us-east-1"
        true none).2.2 ≠
      printedOf (create_lambda_layer envEcho [] tdemo ["b", "a"] "layer" "python3.10"
        "us-east-1" true none).2.2 := by decide

/-- C8 amended: with upload disabled, when every install succeeds and the
installed paths are pairwise distinct, non-empty and fresh, a permuted library
list yields the same successful outcome and the same archive contents up to
entry order; the order still determines the sequence of package-manager
invocations and the generated description string. -/
theorem permutation_same_archive_up_to_order (env : Env) (fs0 : FS) (temp_dir : Path)
    (libs1 libs2 : List String) (layer_name runtime region_name : String)
    (requirements_file : Option String)
    (hperm : libs1.Perm libs2)
    (hok : ∀ l ∈ libs1, exceptOk (env.pip l (temp_dir ++ ["python"])) = true)
    (hrf : reqOk env (temp_dir ++ ["python"]) requirements_file = true)
    (hfresh : fs0.all (fun e => ! inTree temp_dir e.1) = true)
    (hnodup : (allPaths env (temp_dir ++ ["python"]) libs1).Nodup)
    (hnonnil : ∀ l ∈ libs1, ∀ f ∈ pipFilesOf env (temp_dir ++ ["python"]) l, f.1 ≠ []) :
    (create_lambda_layer env fs0 temp_dir libs1 layer_name runtime region_name false
        requirements_file).1 = Except.ok none ∧
    (create_lambda_layer env fs0 temp_dir libs2 layer_name runtime region_name false
        requirements_file).1 = Except.ok none ∧
    ∃ es1 es2,
      Event.zipWrite (temp_dir ++ [layer_name ++ ".zip"]) es1 ∈
        (create_lambda_layer env fs0 temp_dir libs1 layer_name runtime region_name false
          requirements_file).2.2 ∧
      Event.zipWrite (temp_dir ++ [layer_name ++ ".zip"]) es2 ∈
        (create_lambda_layer env fs0 temp_dir libs2 layer_name runtime region_name false
          requirements_file).2.2 ∧
      es1.Perm es2 := by
  have hok2 : ∀ l ∈ libs2, exceptOk (env.pip l (temp_dir ++ ["python"])) = true :=
    fun l hl => hok l (hperm.mem_iff.mpr hl)
  have h1 := tryBody_ok env temp_dir (temp_dir ++ ["python"]) libs1 layer_name runtime
    region_name false requirements_file (setupFS fs0 temp_dir) hok hrf
  have h2 := tryBody_ok env temp_dir (temp_dir ++ ["python"]) libs2 layer_name runtime
    region_name false requirements_file (setupFS fs0 temp_dir) hok2 hrf
  have hpermPaths : (allPaths env (temp_dir ++ ["python"]) libs1).Perm
      (allPaths env (temp_dir ++ ["python"]) libs2) := hperm.flatMap_right _
  have hdisj1 : ∀ p ∈ allPaths env (temp_dir ++ ["python"]) libs1,
      p ∉ (setupFS fs0 temp_dir).map Prod.fst := by
    intro p hp hc
    obtain ⟨l, hl, f, hf, rfl⟩ : ∃ l ∈ libs1, ∃ f ∈ pipFilesOf env (temp_dir ++ ["python"]) l,
        (temp_dir ++ ["python"]) ++ f.1 = p := by
      unfold allPaths at hp
      rw [List.mem_flatMap] at hp
      obtain ⟨l, hl, hpl⟩ := hp
      rw [List.mem_map] at hpl
      obtain ⟨f, hf, hfp⟩ := hpl
      exact ⟨l, hl, f, hf, hfp⟩
    rcases mem_map_fst_fsInsert hc with hc2 | hc2
    · rcases mem_map_fst_fsInsert hc2 with hc3 | hc3
      · rw [List.mem_map] at hc3
        obtain ⟨e, he, hep⟩ := hc3
        have hfr : (! inTree temp_dir e.1) = true := List.all_eq_true.mp hfresh e he
        have hin : inTree temp_dir e.1 = true := by
          rw [hep, List.append_assoc]
          exact inTree_append temp_dir (["python"] ++ f.1)
        rw [hin] at hfr
        simp at hfr
      · have hlen := congrArg List.length hc3
        simp [List.length_append] at hlen
    · have hlen := congrArg List.length hc2
      simp only [List.length_append, List.length_cons, List.length_nil] at hlen
      have h0 : f.1.length = 0 := by omega
      exact hnonnil l hl f hf (List.eq_nil_of_length_eq_zero h0)
  have hdisj2 : ∀ p ∈ allPaths env (temp_dir ++ ["python"]) libs2,
      p ∉ (setupFS fs0 temp_dir).map Prod.fst :=
    fun p hp => hdisj1 p (hpermPaths.mem_iff.mpr hp)
  have hnd2 : (allPaths env (temp_dir ++ ["python"]) libs2).Nodup := hpermPaths.nodup hnodup
  have hA1 := installAll_eq_append libs1 (setupFS fs0 temp_dir) hdisj1 hnodup
  have hA2 := installAll_eq_append libs2 (setupFS fs0 temp_dir) hdisj2 hnd2
  have hfsPerm : (installAll env (temp_dir ++ ["python"]) libs1 (setupFS fs0 temp_dir)).Perm
      (installAll env (temp_dir ++ ["python"]) libs2 (setupFS fs0 temp_dir)) := by
    rw [hA1, hA2]
    exact (hperm.flatMap_right _).append_left _
  have hEperm : (zipEntries (reqApply env (temp_dir ++ ["python"]) requirements_file
      (installAll env (temp_dir ++ ["python"]) libs1 (setupFS fs0 temp_dir))) temp_dir
      (temp_dir ++ ["python"])).Perm
      (zipEntries (reqApply env (temp_dir ++ ["python"]) requirements_file
        (installAll env (temp_dir ++ ["python"]) libs2 (setupFS fs0 temp_dir))) temp_dir
      (temp_dir ++ ["python"])) :=
    zipEntries_perm (reqApply_perm _ hfsPerm)
  refine ⟨?_, ?_, ?_⟩
  · show (tryBody env temp_dir (temp_dir ++ ["python"]) libs1 layer_name runtime region_name
      false requirements_file (setupFS fs0 temp_dir)).1 = Except.ok none
    rw [h1]
    rfl
  · show (tryBody env temp_dir (temp_dir ++ ["python"]) libs2 layer_name runtime region_name
      false requirements_file (setupFS fs0 temp_dir)).1 = Except.ok none
    rw [h2]
    rfl
  · refine ⟨zipEntries (reqApply env (temp_dir ++ ["python"]) requirements_file
      (installAll env (temp_dir ++ ["python"]) libs1 (setupFS fs0 temp_dir))) temp_dir
      (temp_dir ++ ["python"]),
      zipEntries (reqApply env (temp_dir ++ ["python"]) requirements_file
        (installAll env (temp_dir ++ ["python"]) libs2 (setupFS fs0 temp_dir))) temp_dir
      (temp_dir ++ ["python"]), ?_, ?_, hEperm⟩
    · show Event.zipWrite _ _ ∈
        (tryBody env temp_dir (temp_dir ++ ["python"]) libs1 layer_name runtime region_name
          false requirements_file (setupFS fs0 temp_dir)).2.2 ++ [Event.rmtreeCall temp_dir]
      rw [h1]
      unfold okOutcome
      dsimp only
      simp
    · show Event.zipWrite _ _ ∈
        (tryBody env temp_dir (temp_dir ++ ["python"]) libs2 layer_name runtime region_name
          false requirements_file (setupFS fs0 temp_dir)).2.2 ++ [Event.rmtreeCall temp_dir]
      rw [h2]
      unfold okOutcome
      dsimp only
      simp

theorem permutation_same_archive_up_to_order_witness :
    (create_lambda_layer envGood [] tdemo ["a", "b"] "layer" "python3.10" "us-east-1" false
        none).1 = Except.ok none ∧
    (create_lambda_layer envGood [] tdemo ["b", "a"] "layer" "python3.10" "us-east-1" false
        none).1 = Except.ok none ∧
    ∃ es1 es2,
      Event.zipWrite (tdemo ++ ["layer" ++ ".zip"]) es1 ∈
        (create_lambda_layer envGood [] tdemo ["a", "b"] "layer" "python3.10" "us-east-1" false
          none).2.2 ∧
      Event.zipWrite (tdemo ++ ["layer" ++ ".zip"]) es2 ∈
        (create_lambda_layer envGood [] tdemo ["b", "a"] "layer" "python3.10" "us-east-1" false
          none).2.2 ∧
      es1.Perm es2 :=
  permutation_same_archive_up_to_order envGood [] tdemo ["a", "b"] ["b", "a"] "layer"
    "python3.10" "us-east-1" none (by decide) (by decide) (by decide) (by decide) (by decide)
    (by decide)

example :
    (create_lambda_layer envGood [] tdemo ["a"] "layer" "python3.10" "us-east-1" false none).1 =
      Except.ok none := by decide

example :
    Event.printed "resp us-east-1 Lambda layer for a, b" ∈
      (create_lambda_layer envGood [] tdemo ["a", "b"] "layer" "python3.10" "us-east-1" true
        none).2.2 := by decide

end LayerCreator
